import Mathlib

/-!
Shallow embedding of the Finance Management System backend
(src/main.py together with the schemas in src/schemas.py).

Conventions of the embedding:

* Monetary amounts are rationals (`ℚ`); Python `round(x, 2)` is modelled by
  `round2`, rounding half to even as Python's `round` documents.
* Calendar dates are `Date` records `(year, month, day)`.  Python's
  `datetime.date` constructor (and hence `strptime`) only accepts years
  `1 ≤ y ≤ 9999`; `mkDate` reproduces that validation.  Python compares
  `date` values lexicographically by `(year, month, day)`; `Date.ltb` /
  `Date.leb` reproduce that order.  `serialize` renders dates as fixed-width
  ISO strings, whose lexicographic string order agrees with `Date.ltb` for
  four-digit years, so the embedding compares `Date`s directly.
* A month query token that matched the endpoints' pattern `^\d{4}-\d{2}$`
  is modelled as a `MonthTok` (the numeric values of the two digit groups);
  two such strings are equal iff the corresponding `MonthTok`s are equal.
* The document store (`database.py`, not under src/) is modelled from the
  spec: a `Store` holds one list per collection, `listAll` returns the list
  as stored (spec 4.1: no filtering or sorting at that layer), and each
  create appends one record stamped with a creation timestamp and a fresh
  store-assigned id (spec 4.1 and 6).  Store-assigned ids are unique
  (spec 3), so the Python dict keyed by account id built in `summary` is
  modelled as an association list in the same order.
* A raised `HTTPException(400, detail)` is modelled as `Except.error` with
  the matching `ApiError` constructor; an exception that no handler catches
  (such as `ValueError` escaping `month_range`) is `ApiError.serverError`.
* Python `list.sort(key=k, reverse=True)` is a stable sort, descending by
  the key.  The claims below only concern the resulting order with respect
  to the key itself (ties carry equal keys), so the embedding uses
  `List.insertionSort` with the descending key order `txDescOrder`.
-/

inductive TxKind where
  | income
  | expense
  deriving DecidableEq, Repr

inductive AccountKind where
  | cash
  | bank
  | ewallet
  deriving DecidableEq, Repr

/-- A calendar date, as Python's `datetime.date` triple. -/
structure Date where
  year : Nat
  month : Nat
  day : Nat
  deriving DecidableEq, Repr

/-- Python `date` comparison: lexicographic on `(year, month, day)`. -/
def Date.ltb (a b : Date) : Bool :=
  decide (a.year < b.year) ||
    (decide (a.year = b.year) &&
      (decide (a.month < b.month) ||
        (decide (a.month = b.month) && decide (a.day < b.day))))

/-- Python `date` comparison `<=`: strict order or equality. -/
def Date.leb (a b : Date) : Bool :=
  Date.ltb a b || decide (a = b)

/-- CPython `datetime._is_leap`: divisible by 4 and (not by 100 or by 400). -/
def isLeap (y : Nat) : Bool :=
  decide (y % 4 = 0 ∧ (y % 100 ≠ 0 ∨ y % 400 = 0))

/-- CPython `datetime._days_in_month` (via the `_DAYS_IN_MONTH` table). -/
def daysInMonth (y m : Nat) : Nat :=
  if m = 2 then (if isLeap y then 29 else 28)
  else if m = 4 ∨ m = 6 ∨ m = 9 ∨ m = 11 then 30
  else 31

/-- CPython `datetime._DAYS_BEFORE_MONTH` table (index `m - 1`). -/
def daysBeforeMonthTable : List Nat :=
  [0, 31, 59, 90, 120, 151, 181, 212, 243, 273, 304, 334]

/-- CPython `datetime._days_before_month`. -/
def daysBeforeMonth (y m : Nat) : Nat :=
  daysBeforeMonthTable.getD (m - 1) 0 + (if 2 < m ∧ isLeap y = true then 1 else 0)

/-- CPython `datetime._days_before_year`. -/
def daysBeforeYear (year : Nat) : Nat :=
  let y := year - 1
  365 * y + y / 4 - y / 100 + y / 400

/-- CPython `date.toordinal`: day number in the proleptic Gregorian calendar,
with day 1 = January 1 of year 1.  Date subtraction in Python returns the
difference of the two ordinals. -/
def Date.toOrdinal (d : Date) : Nat :=
  daysBeforeYear d.year + daysBeforeMonth d.year d.month + d.day

/-- Python's `datetime.date(y, m, d)` constructor: validates
`MINYEAR = 1 ≤ y ≤ 9999 = MAXYEAR`, `1 ≤ m ≤ 12`, `1 ≤ d ≤ days_in_month`,
raising `ValueError` (here: `none`) otherwise.  `strptime` with format
`%Y-%m-%d` performs exactly this validation on the parsed digit groups. -/
def mkDate (y m d : Nat) : Option Date :=
  if 1 ≤ y ∧ y ≤ 9999 ∧ 1 ≤ m ∧ m ≤ 12 ∧ 1 ≤ d ∧ d ≤ daysInMonth y m then
    some ⟨y, m, d⟩
  else none

/-- `month_range` from src/main.py lines 67-75: parse `month + "-01"` with
`strptime`, then build the first day of the next month (December rolls over
to January of `year + 1`).  Either `date` construction can raise, which the
callers do not catch; `none` models that raise. -/
def month_range (year month : Nat) : Option (Date × Date) :=
  match mkDate year month 1 with
  | none => none
  | some start =>
    match (if start.month = 12 then mkDate (start.year + 1) 1 1
           else mkDate start.year (start.month + 1) 1) with
    | none => none
    | some next_month => some (start, next_month)

/-- A month query token that already matched the pattern `^\d{4}-\d{2}$`:
`year` is the numeric value of the four-digit group, `month` of the
two-digit group. -/
structure MonthTok where
  year : Nat
  month : Nat
  deriving DecidableEq, Repr

structure Account where
  id : String
  name : String
  type : AccountKind
  initial_balance : ℚ
  color : String
  created_at : Nat
  deriving DecidableEq, Repr

structure Category where
  id : String
  name : String
  type : TxKind
  color : String
  created_at : Nat
  deriving DecidableEq, Repr

structure Transaction where
  id : String
  date : Date
  amount : ℚ
  type : TxKind
  category_id : String
  account_id : String
  note : Option String
  created_at : Nat
  deriving DecidableEq, Repr

structure Budget where
  id : String
  category_id : String
  month : MonthTok
  amount : ℚ
  created_at : Nat
  deriving DecidableEq, Repr

/-- Modelled from the spec: the persisted state of the Document Store Gateway
(`database.py`, not under src/).  One list per collection, in insertion
order; `nextId` drives the store-assigned ids and creation timestamps that
spec 4.1 and 6 say the store stamps on every created record. -/
structure Store where
  accounts : List Account
  categories : List Category
  transactions : List Transaction
  budgets : List Budget
  nextId : Nat
  deriving DecidableEq, Repr

/-- Errors surfaced by the handlers.  The two 400-level constructors carry
the `detail` string of the `HTTPException` raised in src/main.py; an
exception no handler catches (spec 7: a server-side error) is
`serverError`. -/
inductive ApiError where
  | referenceNotFound (detail : String)
  | invalidCategoryType (detail : String)
  | serverError
  deriving DecidableEq, Repr

/-- The `in_month` closure defined inside `list_transactions`
(src/main.py lines 153-156): `start <= dd < next_month`. -/
def in_month_of_list (start next_month : Date) (d : Date) : Bool :=
  Date.leb start d && Date.ltb d next_month

/-- The `in_month` closure defined inside `summary`
(src/main.py lines 211-213): `start <= dd < next_month`. -/
def in_month_of_summary (start next_month : Date) (d : Date) : Bool :=
  Date.leb start d && Date.ltb d next_month

/-- The sort key of src/main.py line 159: `(x.get("date"), x.get("created_at"))`,
compared as Python compares those pairs (date first, creation timestamp as
tie-break). -/
def txKeyLe (a b : Transaction) : Bool :=
  Date.ltb a.date b.date ||
    (decide (a.date = b.date) && decide (a.created_at ≤ b.created_at))

/-- Descending order on the sort key: `a` may precede `b` iff `b`'s key is
at most `a`'s. -/
def txDescOrder (a b : Transaction) : Prop :=
  txKeyLe b a = true

instance : DecidableRel txDescOrder := fun a b => by
  unfold txDescOrder; infer_instance

/-- `items.sort(key=lambda x: (x.get("date"), x.get("created_at")), reverse=True)`
from src/main.py line 159: a sort of the items into descending key order. -/
def sortTxDesc (items : List Transaction) : List Transaction :=
  items.insertionSort txDescOrder

/-- `GET /api/transactions` (src/main.py lines 147-160): load, optionally
filter to the requested month with `in_month`, then sort descending by
`(date, created_at)`.  A month token that makes `month_range` raise escapes
the handler as a server error. -/
def list_transactions (month : Option MonthTok) (txs : List Transaction) :
    Except ApiError (List Transaction) :=
  match month with
  | none => .ok (sortTxDesc txs)
  | some tok =>
    match month_range tok.year tok.month with
    | none => .error .serverError
    | some (start, next_month) =>
      .ok (sortTxDesc (txs.filter (fun t => in_month_of_list start next_month t.date)))

/-- Request body of `POST /api/transactions` (schema `TransactionIn`). -/
structure TransactionIn where
  date : Date
  amount : ℚ
  type : TxKind
  category_id : String
  account_id : String
  note : Option String
  deriving DecidableEq, Repr

/-- Request body of `POST /api/budgets` (schema `BudgetIn`). -/
structure BudgetIn where
  category_id : String
  month : MonthTok
  amount : ℚ
  deriving DecidableEq, Repr

/-- Modelled from the spec: `db["account"].find_one({"_id": ObjectId(id)})`
(the store client is not under src/) — look up the record with the given
store-assigned id. -/
def find_account (s : Store) (account_id : String) : Option Account :=
  s.accounts.find? (fun a => a.id == account_id)

/-- Modelled from the spec: `db["category"].find_one({"_id": ObjectId(id)})`
— look up the category with the given store-assigned id. -/
def find_category (s : Store) (category_id : String) : Option Category :=
  s.categories.find? (fun c => c.id == category_id)

/-- `POST /api/transactions` (src/main.py lines 163-172): check that the
referenced account and category exist (in that order) and only then insert;
the result pairs the handler's response with the resulting store state. -/
def create_transaction (payload : TransactionIn) (s : Store) :
    Except ApiError String × Store :=
  if (find_account s payload.account_id).isNone then
    (.error (.referenceNotFound "Account not found"), s)
  else if (find_category s payload.category_id).isNone then
    (.error (.referenceNotFound "Category not found"), s)
  else
    let tx_id := "doc" ++ toString s.nextId
    let tx : Transaction :=
      { id := tx_id, date := payload.date, amount := payload.amount,
        type := payload.type, category_id := payload.category_id,
        account_id := payload.account_id, note := payload.note,
        created_at := s.nextId }
    (.ok tx_id, { s with transactions := s.transactions ++ [tx], nextId := s.nextId + 1 })

/-- `POST /api/budgets` (src/main.py lines 187-197): the category must exist
and must have type `expense`; only then insert. -/
def create_budget (payload : BudgetIn) (s : Store) :
    Except ApiError String × Store :=
  match find_category s payload.category_id with
  | none => (.error (.referenceNotFound "Category not found"), s)
  | some cat =>
    if cat.type ≠ TxKind.expense then
      (.error (.invalidCategoryType "Budget only allowed for expense categories"), s)
    else
      let b_id := "doc" ++ toString s.nextId
      let b : Budget :=
        { id := b_id, category_id := payload.category_id,
          month := payload.month, amount := payload.amount,
          created_at := s.nextId }
      (.ok b_id, { s with budgets := s.budgets ++ [b], nextId := s.nextId + 1 })

/-- Round half to even to an integer, as Python's `round` documents
("rounding is done toward the even choice"). -/
def roundHalfEven (q : ℚ) : ℤ :=
  let f := ⌊q⌋
  if q - f < 1 / 2 then f
  else if 1 / 2 < q - f then f + 1
  else if f % 2 = 0 then f else f + 1

/-- Python `round(x, 2)`: round to the closest multiple of `1 / 100`. -/
def round2 (q : ℚ) : ℚ :=
  (roundHalfEven (q * 100) : ℚ) / 100

/-- Python `sum(t["amount"] for t in ts)`. -/
def sumAmounts (ts : List Transaction) : ℚ :=
  ts.foldl (fun acc t => acc + t.amount) 0

/-- The per-account balance loop of src/main.py lines 224-230: start from
`initial_balance`, then add income amounts and subtract expense amounts of
the transactions referencing the account. -/
def accountBalance (acc : Account) (all_txs : List Transaction) : ℚ :=
  all_txs.foldl
    (fun balance t =>
      if t.account_id == acc.id then
        if t.type == TxKind.income then balance + t.amount else balance - t.amount
      else balance)
    acc.initial_balance

/-- One value of the `account_balances` mapping built by `summary`. -/
structure AccountStatus where
  name : String
  color : String
  balance : ℚ
  deriving DecidableEq, Repr

/-- One entry of the `budget_status` list built by `summary`. -/
structure BudgetStatus where
  budget_id : String
  category_id : String
  month : MonthTok
  amount : ℚ
  spent : ℚ
  remaining : ℚ
  deriving DecidableEq, Repr

/-- The response object of `GET /api/summary` (src/main.py lines 258-266). -/
structure SummaryOut where
  total_income : ℚ
  total_expense : ℚ
  overall_balance : ℚ
  accounts : List (String × AccountStatus)
  categories : List Category
  transactions : List Transaction
  budgets : List BudgetStatus
  deriving DecidableEq, Repr

/-- `GET /api/summary` (src/main.py lines 203-266).  Loads everything,
optionally filters the transactions to the month, computes rounded totals,
per-account lifetime balances over the unfiltered transactions, the overall
balance, the budget-status list (only when a month is given), and returns
the first 50 of the (filtered, otherwise untouched) transaction list. -/
def summary (month : Option MonthTok) (s : Store) : Except ApiError SummaryOut :=
  let filtered : Except ApiError (List Transaction) :=
    match month with
    | none => .ok s.transactions
    | some tok =>
      match month_range tok.year tok.month with
      | none => .error .serverError
      | some (start, next_month) =>
        .ok (s.transactions.filter (fun t => in_month_of_summary start next_month t.date))
  match filtered with
  | .error e => .error e
  | .ok txs =>
    let total_income := sumAmounts (txs.filter (fun t => t.type == TxKind.income))
    let total_expense := sumAmounts (txs.filter (fun t => t.type == TxKind.expense))
    let all_txs := s.transactions
    let account_balances : List (String × AccountStatus) :=
      s.accounts.map (fun acc =>
        (acc.id,
          { name := acc.name, color := acc.color,
            balance := round2 (accountBalance acc all_txs) }))
    let overall_balance := round2 ((account_balances.map (fun v => v.2.balance)).foldl (· + ·) 0)
    let budget_status : List BudgetStatus :=
      match month with
      | none => []
      | some tok =>
        (s.budgets.filter (fun b => b.month == tok)).map (fun b =>
          let spent := sumAmounts (txs.filter (fun t =>
            t.category_id == b.category_id && t.type == TxKind.expense))
          { budget_id := b.id, category_id := b.category_id, month := tok,
            amount := b.amount, spent := round2 spent,
            remaining := round2 (b.amount - spent) })
    .ok { total_income := round2 total_income,
          total_expense := round2 total_expense,
          overall_balance := overall_balance,
          accounts := account_balances,
          categories := s.categories,
          transactions := txs.take 50,
          budgets := budget_status }

/-- The `accounts` field of a successful summary response. -/
def summaryAccountsOf (r : Except ApiError SummaryOut) :
    Option (List (String × AccountStatus)) :=
  r.toOption.map fun o => o.accounts

/-- The `overall_balance` field of a successful summary response. -/
def summaryOverallOf (r : Except ApiError SummaryOut) : Option ℚ :=
  r.toOption.map fun o => o.overall_balance

/-- The `budgets` field of a successful summary response. -/
def summaryBudgetsOf (r : Except ApiError SummaryOut) : Option (List BudgetStatus) :=
  r.toOption.map fun o => o.budgets

/-- The `transactions` field of a successful summary response. -/
def summaryTxsOf (r : Except ApiError SummaryOut) : Option (List Transaction) :=
  r.toOption.map fun o => o.transactions

/-- The optional month parameter does not make `month_range` raise (always
true when no month is supplied). -/
def monthOk : Option MonthTok → Prop
  | none => True
  | some tok => month_range tok.year tok.month ≠ none

instance : DecidablePred monthOk := fun m =>
  match m with
  | none => isTrue trivial
  | some tok => by unfold monthOk; infer_instance

/-- The overall balance as the spec's testable property (spec 8) words it:
sum the per-account balances first and round once after summation —
"rounded to 2 decimals only after summation (not sum-of-rounded-values)". -/
def specOverallBalance (s : Store) : ℚ :=
  round2 ((s.accounts.map fun acc => accountBalance acc s.transactions).foldl (· + ·) 0)

/-! Concrete fixtures used by witnesses and counterexamples. -/

def accA : Account :=
  { id := "a1", name := "A", type := AccountKind.cash, initial_balance := 100,
    color := "#6366F1", created_at := 0 }

def accP : Account :=
  { id := "p1", name := "P", type := AccountKind.bank, initial_balance := 1 / 250,
    color := "#6366F1", created_at := 0 }

def accQ : Account :=
  { id := "p2", name := "Q", type := AccountKind.bank, initial_balance := 1 / 250,
    color := "#6366F1", created_at := 1 }

def catC : Category :=
  { id := "c1", name := "C", type := TxKind.expense, color := "#22C55E", created_at := 0 }

def catI : Category :=
  { id := "c2", name := "I", type := TxKind.income, color := "#22C55E", created_at := 1 }

def tokMar : MonthTok := { year := 2024, month := 3 }

def txT1 : Transaction :=
  { id := "t1", date := ⟨2024, 3, 15⟩, amount := 30, type := TxKind.expense,
    category_id := "c1", account_id := "a1", note := none, created_at := 2 }

def txEarly : Transaction :=
  { id := "t2", date := ⟨2024, 3, 1⟩, amount := 5, type := TxKind.expense,
    category_id := "c1", account_id := "a1", note := none, created_at := 3 }

def txLate : Transaction :=
  { id := "t3", date := ⟨2024, 3, 2⟩, amount := 7, type := TxKind.income,
    category_id := "c1", account_id := "a1", note := none, created_at := 4 }

def budB : Budget :=
  { id := "b1", category_id := "c1", month := tokMar, amount := 10, created_at := 5 }

def storeMain : Store :=
  { accounts := [accA], categories := [catC, catI], transactions := [txT1],
    budgets := [budB], nextId := 6 }

def storeC1 : Store :=
  { accounts := [], categories := [], transactions := [txEarly, txLate],
    budgets := [], nextId := 6 }

def storeC3 : Store :=
  { accounts := [accP, accQ], categories := [], transactions := [],
    budgets := [], nextId := 2 }

def txInW : TransactionIn :=
  { date := ⟨2024, 3, 20⟩, amount := 12, type := TxKind.expense,
    category_id := "c1", account_id := "a1", note := none }

def budInExpense : BudgetIn := { category_id := "c1", month := tokMar, amount := 50 }

def budInIncome : BudgetIn := { category_id := "c2", month := tokMar, amount := 50 }

def budInMissing : BudgetIn := { category_id := "zz", month := tokMar, amount := 50 }

/-! Helper lemmas. -/

theorem Date.ltb_irrefl (a : Date) : Date.ltb a a = false := by
  simp [Date.ltb]

theorem Date.leb_refl (a : Date) : Date.leb a a = true := by
  simp [Date.leb]

theorem Date.ltb_or (a b : Date) :
    Date.ltb a b = true ∨ Date.ltb b a = true ∨ a = b := by
  obtain ⟨y1, m1, d1⟩ := a
  obtain ⟨y2, m2, d2⟩ := b
  simp only [Date.ltb, Date.mk.injEq, Bool.or_eq_true, Bool.and_eq_true,
    decide_eq_true_eq]
  omega

theorem Date.ltb_trans {a b c : Date}
    (h1 : Date.ltb a b = true) (h2 : Date.ltb b c = true) :
    Date.ltb a c = true := by
  obtain ⟨y1, m1, d1⟩ := a
  obtain ⟨y2, m2, d2⟩ := b
  obtain ⟨y3, m3, d3⟩ := c
  simp only [Date.ltb, Bool.or_eq_true, Bool.and_eq_true, decide_eq_true_eq] at *
  omega

theorem txKeyLe_iff (a b : Transaction) :
    txKeyLe a b = true ↔
      (Date.ltb a.date b.date = true ∨ (a.date = b.date ∧ a.created_at ≤ b.created_at)) := by
  simp [txKeyLe]

theorem txKeyLe_total (a b : Transaction) : (txKeyLe a b || txKeyLe b a) = true := by
  simp only [Bool.or_eq_true, txKeyLe_iff]
  rcases Date.ltb_or a.date b.date with h | h | h
  · exact Or.inl (Or.inl h)
  · exact Or.inr (Or.inl h)
  · rcases Nat.le_total a.created_at b.created_at with h2 | h2
    · exact Or.inl (Or.inr ⟨h, h2⟩)
    · exact Or.inr (Or.inr ⟨h.symm, h2⟩)

theorem txKeyLe_trans {a b c : Transaction}
    (h1 : txKeyLe a b = true) (h2 : txKeyLe b c = true) : txKeyLe a c = true := by
  rw [txKeyLe_iff] at h1 h2 ⊢
  rcases h1 with h1 | ⟨e1, l1⟩
  · rcases h2 with h2 | ⟨e2, l2⟩
    · exact Or.inl (Date.ltb_trans h1 h2)
    · exact Or.inl (by rw [← e2]; exact h1)
  · rcases h2 with h2 | ⟨e2, l2⟩
    · exact Or.inl (by rw [e1]; exact h2)
    · exact Or.inr ⟨e1.trans e2, le_trans l1 l2⟩

instance : IsTotal Transaction txDescOrder :=
  ⟨fun a b => by
    unfold txDescOrder
    rcases Bool.or_eq_true_iff.mp (txKeyLe_total b a) with h | h
    · exact Or.inl h
    · exact Or.inr h⟩

instance : IsTrans Transaction txDescOrder :=
  ⟨fun a b c h1 h2 => txKeyLe_trans h2 h1⟩

theorem sortTxDesc_pairwise (items : List Transaction) :
    (sortTxDesc items).Pairwise txDescOrder :=
  List.sorted_insertionSort txDescOrder items

theorem sortTxDesc_perm (items : List Transaction) :
    List.Perm (sortTxDesc items) items :=
  List.perm_insertionSort txDescOrder items

theorem foldl_add_amount (ts : List Transaction) (x : ℚ) :
    ts.foldl (fun acc t => acc + t.amount) x = x + sumAmounts ts := by
  induction ts generalizing x with
  | nil => simp [sumAmounts]
  | cons t ts ih =>
    have h2 : sumAmounts (t :: ts) = t.amount + sumAmounts ts := by
      rw [sumAmounts, List.foldl_cons, ih]
      ring
    rw [List.foldl_cons, ih, h2]
    ring

theorem sumAmounts_cons (t : Transaction) (ts : List Transaction) :
    sumAmounts (t :: ts) = t.amount + sumAmounts ts := by
  rw [sumAmounts, List.foldl_cons, foldl_add_amount]
  ring

theorem accountBalance_loop (aid : String) (ts : List Transaction) (x : ℚ) :
    ts.foldl
      (fun balance t =>
        if t.account_id == aid then
          if t.type == TxKind.income then balance + t.amount else balance - t.amount
        else balance) x
    = x + sumAmounts (ts.filter fun t => t.account_id == aid && t.type == TxKind.income)
        - sumAmounts (ts.filter fun t => t.account_id == aid && t.type == TxKind.expense) := by
  induction ts generalizing x with
  | nil => simp [sumAmounts]
  | cons t ts ih =>
    rw [List.foldl_cons, ih, List.filter_cons, List.filter_cons]
    rcases t with ⟨tid, td, ta, tk, tcat, tacc, tnote, tct⟩
    by_cases ha : tacc = aid
    · subst ha
      cases tk <;> simp [sumAmounts_cons] <;> ring
    · have hb : (tacc == aid) = false := by simp [ha]
      simp [hb]

theorem accountBalance_eq (acc : Account) (ts : List Transaction) :
    accountBalance acc ts =
      acc.initial_balance
        + sumAmounts (ts.filter fun t => t.account_id == acc.id && t.type == TxKind.income)
        - sumAmounts (ts.filter fun t => t.account_id == acc.id && t.type == TxKind.expense) := by
  rw [accountBalance]
  exact accountBalance_loop acc.id ts acc.initial_balance

theorem le_daysInMonth (y m : Nat) : 28 ≤ daysInMonth y m ∧ daysInMonth y m ≤ 31 := by
  unfold daysInMonth
  split_ifs <;> omega

theorem mkDate_some {y m d : Nat}
    (h : 1 ≤ y ∧ y ≤ 9999 ∧ 1 ≤ m ∧ m ≤ 12 ∧ 1 ≤ d ∧ d ≤ daysInMonth y m) :
    mkDate y m d = some ⟨y, m, d⟩ := by
  rw [mkDate, if_pos h]

theorem month_range_some (y m : Nat) (h1 : 1 ≤ y) (h2 : y ≤ 9999) (h3 : 1 ≤ m)
    (h4 : m ≤ 12) (h5 : ¬(y = 9999 ∧ m = 12)) :
    month_range y m =
      some (⟨y, m, 1⟩, if m = 12 then (⟨y + 1, 1, 1⟩ : Date) else ⟨y, m + 1, 1⟩) := by
  have hd : 1 ≤ daysInMonth y m := le_trans (by omega) (le_daysInMonth y m).1
  have hd1 : 1 ≤ daysInMonth (y + 1) 1 := le_trans (by omega) (le_daysInMonth (y + 1) 1).1
  have hdm : 1 ≤ daysInMonth y (m + 1) := le_trans (by omega) (le_daysInMonth y (m + 1)).1
  by_cases hm : m = 12
  · subst hm
    simp [month_range, mkDate_some ⟨h1, h2, by omega, by omega, le_refl 1, hd⟩,
      mkDate_some ⟨by omega, by omega, by omega, by omega, le_refl 1, hd1⟩]
  · simp [month_range, mkDate_some ⟨h1, h2, h3, h4, le_refl 1, hd⟩,
      mkDate_some ⟨h1, h2, by omega, by omega, le_refl 1, hdm⟩, hm]

theorem month_range_none_of_bad_month (y m : Nat) (h : m = 0 ∨ 12 < m) :
    month_range y m = none := by
  have hnone : mkDate y m 1 = none := by
    rw [mkDate, if_neg]
    intro hc
    omega
  rw [month_range, hnone]

theorem month_range_inv {y m : Nat} {start next_month : Date}
    (h : month_range y m = some (start, next_month)) :
    start = ⟨y, m, 1⟩ ∧ 1 ≤ y ∧ y ≤ 9999 ∧ 1 ≤ m ∧ m ≤ 12 ∧
      next_month = (if m = 12 then (⟨y + 1, 1, 1⟩ : Date) else ⟨y, m + 1, 1⟩) := by
  by_cases hc : 1 ≤ y ∧ y ≤ 9999 ∧ 1 ≤ m ∧ m ≤ 12
  · obtain ⟨h1, h2, h3, h4⟩ := hc
    by_cases hm : y = 9999 ∧ m = 12
    · exfalso
      obtain ⟨hy, hmm⟩ := hm
      subst hy
      subst hmm
      have hn : month_range 9999 12 = none := by decide
      rw [hn] at h
      exact Option.noConfusion h
    · have he := month_range_some y m h1 h2 h3 h4 hm
      rw [he] at h
      injection h with h'
      rw [Prod.mk.injEq] at h'
      obtain ⟨ha, hb⟩ := h'
      exact ⟨ha.symm, h1, h2, h3, h4, hb.symm⟩
  · exfalso
    have hnone : mkDate y m 1 = none := by
      rw [mkDate, if_neg]
      intro hcc
      exact hc ⟨hcc.1, hcc.2.1, hcc.2.2.1, hcc.2.2.2.1⟩
    rw [month_range, hnone] at h
    exact Option.noConfusion h

theorem daysBeforeYear_succ (y : Nat) (hy : 1 ≤ y) :
    daysBeforeYear (y + 1) = daysBeforeYear y + 365 + (if isLeap y then 1 else 0) := by
  have e1 : daysBeforeYear (y + 1) = 365 * y + y / 4 - y / 100 + y / 400 := by
    simp [daysBeforeYear]
  have e2 : daysBeforeYear y
      = 365 * (y - 1) + (y - 1) / 4 - (y - 1) / 100 + (y - 1) / 400 := by
    simp [daysBeforeYear]
  rw [e1, e2, isLeap]
  simp only [decide_eq_true_eq]
  split_ifs with h
  · omega
  · omega

theorem daysBeforeMonth_succ (y m : Nat) (h1 : 1 ≤ m) (h2 : m ≤ 11) :
    daysBeforeMonth y (m + 1) = daysBeforeMonth y m + daysInMonth y m := by
  cases hL : isLeap y <;> interval_cases m <;>
    simp only [daysBeforeMonth, daysBeforeMonthTable, daysInMonth, hL] <;> decide

theorem toOrdinal_next (y m : Nat) (h1 : 1 ≤ y) (h3 : 1 ≤ m) (h4 : m ≤ 12) :
    Date.toOrdinal (if m = 12 then (⟨y + 1, 1, 1⟩ : Date) else ⟨y, m + 1, 1⟩)
      = Date.toOrdinal ⟨y, m, 1⟩ + daysInMonth y m := by
  by_cases hm : m = 12
  · subst hm
    rw [if_pos rfl]
    unfold Date.toOrdinal
    dsimp only
    rw [daysBeforeYear_succ y h1]
    cases hL : isLeap y <;>
      simp only [daysBeforeMonth, daysBeforeMonthTable, daysInMonth, hL] <;>
      simp <;> omega
  · rw [if_neg hm]
    unfold Date.toOrdinal
    dsimp only
    rw [daysBeforeMonth_succ y m h3 (by omega)]
    omega

theorem summary_ok_accounts (m : Option MonthTok) (s : Store) (h : monthOk m) :
    summaryAccountsOf (summary m s) =
      some (s.accounts.map fun acc =>
        (acc.id, ⟨acc.name, acc.color, round2 (accountBalance acc s.transactions)⟩)) := by
  cases m with
  | none => rfl
  | some tok =>
    rcases hr : month_range tok.year tok.month with _ | pr
    · exact absurd hr h
    · obtain ⟨start, next_month⟩ := pr
      simp [summary, hr, summaryAccountsOf, Except.toOption]

theorem summary_ok_overall (m : Option MonthTok) (s : Store) (h : monthOk m) :
    summaryOverallOf (summary m s) =
      some (round2 ((s.accounts.map fun acc =>
        round2 (accountBalance acc s.transactions)).foldl (· + ·) 0)) := by
  cases m with
  | none =>
    simp only [summary, summaryOverallOf, Except.toOption, Option.map, List.map_map]
    rfl
  | some tok =>
    rcases hr : month_range tok.year tok.month with _ | pr
    · exact absurd hr h
    · obtain ⟨start, next_month⟩ := pr
      simp only [summary, hr, summaryOverallOf, Except.toOption, Option.map, List.map_map]
      rfl

theorem round2_lowHalf {q : ℚ} {f : ℤ} (hf : ⌊q * 100⌋ = f)
    (hlt : q * 100 - (f : ℚ) < 1 / 2) : round2 q = (f : ℚ) / 100 := by
  simp only [round2, roundHalfEven]
  rw [hf, if_pos hlt]

theorem round2_highHalf {q : ℚ} {f : ℤ} (hf : ⌊q * 100⌋ = f)
    (hgt : 1 / 2 < q * 100 - (f : ℚ)) : round2 q = ((f : ℚ) + 1) / 100 := by
  simp only [round2, roundHalfEven]
  rw [hf, if_neg (by linarith), if_pos hgt]
  push_cast
  ring

theorem round2_eval_q250 : round2 ((1 : ℚ) / 250) = 0 := by
  have hf : ⌊((1 : ℚ) / 250 * 100)⌋ = 0 := by
    rw [Int.floor_eq_iff] <;> norm_num
  rw [round2_lowHalf hf (by norm_num)]
  norm_num

theorem round2_eval_q125 : round2 ((1 : ℚ) / 125) = 1 / 100 := by
  have hf : ⌊((1 : ℚ) / 125 * 100)⌋ = 0 := by
    rw [Int.floor_eq_iff] <;> norm_num
  rw [round2_highHalf hf (by norm_num)]
  norm_num

theorem round2_eval_zero : round2 (0 : ℚ) = 0 := by
  have hf : ⌊((0 : ℚ) * 100)⌋ = 0 := by norm_num
  rw [round2_lowHalf hf (by norm_num)]
  norm_num

theorem round2_eval_30 : round2 ((30 : ℚ)) = 30 := by
  have hf : ⌊((30 : ℚ) * 100)⌋ = 3000 := by
    rw [Int.floor_eq_iff] <;> norm_num
  rw [round2_lowHalf hf (by norm_num)]
  norm_num

theorem round2_eval_neg20 : round2 ((-20 : ℚ)) = -20 := by
  have hf : ⌊((-20 : ℚ) * 100)⌋ = -2000 := by
    rw [Int.floor_eq_iff] <;> norm_num
  rw [round2_lowHalf hf (by norm_num)]
  norm_num

/-- C2: for every summary request whose month parameter does not make
`month_range` raise, the balance reported for each account equals its
initial_balance plus the sum of income amounts minus the sum of expense
amounts over ALL stored transactions (never the month-filtered list),
rounded to 2 decimal places. -/
theorem C2_account_balance_full_history (m : Option MonthTok) (s : Store)
    (h : monthOk m) :
    summaryAccountsOf (summary m s) =
      some (s.accounts.map fun acc =>
        (acc.id, ⟨acc.name, acc.color,
          round2 (acc.initial_balance
            + sumAmounts (s.transactions.filter fun t =>
                t.account_id == acc.id && t.type == TxKind.income)
            - sumAmounts (s.transactions.filter fun t =>
                t.account_id == acc.id && t.type == TxKind.expense))⟩)) := by
  rw [summary_ok_accounts m s h]
  simp only [accountBalance_eq]

theorem C2_account_balance_full_history_witness :
    monthOk (some tokMar) ∧
    summaryAccountsOf (summary (some tokMar) storeMain) =
      some (storeMain.accounts.map fun acc =>
        (acc.id, ⟨acc.name, acc.color,
          round2 (acc.initial_balance
            + sumAmounts (storeMain.transactions.filter fun t =>
                t.account_id == acc.id && t.type == TxKind.income)
            - sumAmounts (storeMain.transactions.filter fun t =>
                t.account_id == acc.id && t.type == TxKind.expense))⟩)) :=
  ⟨by decide, C2_account_balance_full_history (some tokMar) storeMain (by decide)⟩

/-- C3 counterexample: two accounts with initial balance 1/250 (0.004) and no
transactions.  The code rounds each balance to 0 and then sums, giving
overall_balance 0; rounding only after summation (as the claim states) gives
round2 (0.008) = 0.01.  So overall_balance is a sum of already-rounded
values, contradicting the claim. -/
theorem C3_counterexample_overall_balance :
    summaryOverallOf (summary none storeC3) = some 0 ∧
    specOverallBalance storeC3 = 1 / 100 ∧ (0 : ℚ) ≠ 1 / 100 := by
  have hbal : ∀ acc : Account, accountBalance acc ([] : List Transaction) = acc.initial_balance := by
    intro acc
    simp [accountBalance]
  refine ⟨?_, ?_, by norm_num⟩
  · rw [summary_ok_overall none storeC3 trivial]
    simp only [storeC3, accP, accQ, List.map_cons, List.map_nil, hbal,
      List.foldl_cons, List.foldl_nil, round2_eval_q250]
    norm_num [round2_eval_zero]
  · rw [specOverallBalance]
    simp only [storeC3, accP, accQ, List.map_cons, List.map_nil, hbal,
      List.foldl_cons, List.foldl_nil]
    rw [show (0 : ℚ) + 1 / 250 + 1 / 250 = 1 / 125 by norm_num]
    exact round2_eval_q125

/-- C3 (amended): overall_balance equals the sum of the ALREADY-ROUNDED
per-account balances, rounded once more to 2 decimals after summation; by
the counterexample it is not, in general, equal to rounding the sum of the
unrounded per-account balances. -/
theorem C3_overall_balance_amended (m : Option MonthTok) (s : Store)
    (h : monthOk m) :
    summaryOverallOf (summary m s) =
      some (round2 ((s.accounts.map fun acc =>
        round2 (acc.initial_balance
          + sumAmounts (s.transactions.filter fun t =>
              t.account_id == acc.id && t.type == TxKind.income)
          - sumAmounts (s.transactions.filter fun t =>
              t.account_id == acc.id && t.type == TxKind.expense))).foldl (· + ·) 0)) := by
  rw [summary_ok_overall m s h]
  simp only [accountBalance_eq]

theorem C3_overall_balance_amended_witness :
    monthOk (some tokMar) ∧
    summaryOverallOf (summary (some tokMar) storeMain) =
      some (round2 ((storeMain.accounts.map fun acc =>
        round2 (acc.initial_balance
          + sumAmounts (storeMain.transactions.filter fun t =>
              t.account_id == acc.id && t.type == TxKind.income)
          - sumAmounts (storeMain.transactions.filter fun t =>
              t.account_id == acc.id && t.type == TxKind.expense))).foldl (· + ·) 0)) :=
  ⟨by decide, C3_overall_balance_amended (some tokMar) storeMain (by decide)⟩

/-- C5: for every month token accepted by `month_range`, the in-month test
used by the transaction list handler and the one used by the summary engine
are the same half-open test `start <= d < next_month_start`: a date equal to
the month start is a member, a date equal to the next month's start is not,
and membership is exactly the conjunction of the two comparisons. -/
theorem C5_in_month_half_open (y m : Nat) (start next_month : Date)
    (h : month_range y m = some (start, next_month)) :
    (∀ d : Date, in_month_of_list start next_month d = true ↔
        (Date.leb start d = true ∧ Date.ltb d next_month = true)) ∧
    (∀ d : Date,
        in_month_of_summary start next_month d = in_month_of_list start next_month d) ∧
    in_month_of_list start next_month start = true ∧
    in_month_of_list start next_month next_month = false ∧
    in_month_of_summary start next_month start = true ∧
    in_month_of_summary start next_month next_month = false := by
  obtain ⟨hs, h1, h2, h3, h4, hn⟩ := month_range_inv h
  have hlt : Date.ltb start next_month = true := by
    subst hs
    subst hn
    by_cases hm : m = 12
    · subst hm
      rw [if_pos rfl]
      simp only [Date.ltb, Bool.or_eq_true, Bool.and_eq_true, decide_eq_true_eq]
      omega
    · rw [if_neg hm]
      simp only [Date.ltb, Bool.or_eq_true, Bool.and_eq_true, decide_eq_true_eq]
      exact Or.inr ⟨by trivial, Or.inl (by omega)⟩
  refine ⟨fun d => ?_, fun d => rfl, ?_, ?_, ?_, ?_⟩
  · simp [in_month_of_list]
  · simp [in_month_of_list, Date.leb_refl, hlt]
  · simp [in_month_of_list, Date.ltb_irrefl]
  · simp [in_month_of_summary, Date.leb_refl, hlt]
  · simp [in_month_of_summary, Date.ltb_irrefl]

theorem C5_in_month_half_open_witness :
    in_month_of_list ⟨2024, 3, 1⟩ ⟨2024, 4, 1⟩ ⟨2024, 3, 1⟩ = true ∧
    in_month_of_list ⟨2024, 3, 1⟩ ⟨2024, 4, 1⟩ ⟨2024, 4, 1⟩ = false ∧
    in_month_of_summary ⟨2024, 3, 1⟩ ⟨2024, 4, 1⟩ ⟨2024, 3, 1⟩ = true ∧
    in_month_of_summary ⟨2024, 3, 1⟩ ⟨2024, 4, 1⟩ ⟨2024, 4, 1⟩ = false := by
  have h := C5_in_month_half_open 2024 3 ⟨2024, 3, 1⟩ ⟨2024, 4, 1⟩ (by decide)
  exact ⟨h.2.2.1, h.2.2.2.1, h.2.2.2.2.1, h.2.2.2.2.2⟩

/-- C9: every successful transaction-list response (with or without a month
filter) is pairwise ordered descending by the pair (date, creation
timestamp): whenever `a` precedes `b` in the response, either `b`'s date is
strictly earlier, or the dates are equal and `b` was created no later. -/
theorem C9_transactions_sorted_desc (month : Option MonthTok)
    (txs l : List Transaction) (h : list_transactions month txs = .ok l) :
    l.Pairwise (fun a b => Date.ltb b.date a.date = true ∨
      (b.date = a.date ∧ b.created_at ≤ a.created_at)) := by
  have key : ∀ items : List Transaction,
      (sortTxDesc items).Pairwise (fun a b => Date.ltb b.date a.date = true ∨
        (b.date = a.date ∧ b.created_at ≤ a.created_at)) := by
    intro items
    refine (sortTxDesc_pairwise items).imp ?_
    intro a b hab
    rw [txDescOrder, txKeyLe_iff] at hab
    exact hab
  cases month with
  | none =>
    simp only [list_transactions] at h
    injection h with h2
    rw [← h2]
    exact key txs
  | some tok =>
    rcases hr : month_range tok.year tok.month with _ | pr
    · simp [list_transactions, hr] at h
    · obtain ⟨start, next_month⟩ := pr
      simp only [list_transactions, hr] at h
      injection h with h2
      rw [← h2]
      exact key _

theorem C9_transactions_sorted_desc_witness :
    ([txLate, txEarly] : List Transaction).Pairwise (fun a b =>
      Date.ltb b.date a.date = true ∨ (b.date = a.date ∧ b.created_at ≤ a.created_at)) :=
  C9_transactions_sorted_desc none [txEarly, txLate] [txLate, txEarly] (by rfl)

/-- C4 counterexample: the tokens 0000-01 and 9999-12 both match `YYYY-MM`
and have a valid month component (01 and 12), yet `month_range` raises
(modelled as `none`) instead of returning the month's date pair: year 0 is
below Python's MINYEAR, and for 9999-12 the next-month date would need year
10000 > MAXYEAR. -/
theorem C4_counterexample_month_range_year_bounds :
    month_range 0 1 = none ∧ month_range 9999 12 = none :=
  ⟨rfl, rfl⟩

/-- C4 (amended): for every token `YYYY-MM` whose month is 01..12, except
year 0000 and except 9999-12, `month_range` returns (first day of the
month, first day of the following month); the ordinal difference of the two
dates is exactly the day count of that month and year (between 28 and 31,
leap years included), and a December input yields January of year+1. -/
theorem C4_month_range_amended (y m : Nat) (h1 : 1 ≤ y) (h2 : y ≤ 9999)
    (h3 : 1 ≤ m) (h4 : m ≤ 12) (h5 : ¬(y = 9999 ∧ m = 12)) :
    month_range y m =
      some (⟨y, m, 1⟩, if m = 12 then (⟨y + 1, 1, 1⟩ : Date) else ⟨y, m + 1, 1⟩) ∧
    Date.toOrdinal (if m = 12 then (⟨y + 1, 1, 1⟩ : Date) else ⟨y, m + 1, 1⟩)
      = Date.toOrdinal ⟨y, m, 1⟩ + daysInMonth y m ∧
    28 ≤ daysInMonth y m ∧ daysInMonth y m ≤ 31 :=
  ⟨month_range_some y m h1 h2 h3 h4 h5, toOrdinal_next y m h1 h3 h4,
   (le_daysInMonth y m).1, (le_daysInMonth y m).2⟩

theorem C4_month_range_amended_witness :
    month_range 2024 2 =
      some (⟨2024, 2, 1⟩, if 2 = 12 then (⟨2024 + 1, 1, 1⟩ : Date) else ⟨2024, 2 + 1, 1⟩) ∧
    Date.toOrdinal (if 2 = 12 then (⟨2024 + 1, 1, 1⟩ : Date) else ⟨2024, 2 + 1, 1⟩)
      = Date.toOrdinal ⟨2024, 2, 1⟩ + daysInMonth 2024 2 ∧
    28 ≤ daysInMonth 2024 2 ∧ daysInMonth 2024 2 ≤ 31 :=
  C4_month_range_amended 2024 2 (by decide) (by decide) (by decide) (by decide) (by decide)

/-- C10 counterexample: the token 9999-12 has a month component in 01..12,
so the claim says `month_range` returns normally on it — but it raises, and
a transaction-list request carrying it fails with the server-side error. -/
theorem C10_counterexample_valid_month_raises :
    month_range 9999 12 = none ∧
    list_transactions (some ⟨9999, 12⟩) [] = .error .serverError :=
  ⟨rfl, rfl⟩

/-- C10 (amended): over tokens that match the endpoints' pattern,
`month_range` is partial: it returns normally for months 01..12 — except
for year 0000 and for the token 9999-12, where Python's year range makes it
raise — and it raises for month 00 or any month above 12; in the raising
cases a transaction-list or summary request carrying the token fails with
the unhandled server-side error, not a client validation error. -/
theorem C10_month_range_partial_amended (y m : Nat) :
    ((1 ≤ y ∧ y ≤ 9999 ∧ 1 ≤ m ∧ m ≤ 12 ∧ ¬(y = 9999 ∧ m = 12)) →
      month_range y m =
        some (⟨y, m, 1⟩, if m = 12 then (⟨y + 1, 1, 1⟩ : Date) else ⟨y, m + 1, 1⟩)) ∧
    ((m = 0 ∨ 12 < m) →
      month_range y m = none ∧
      (∀ txs, list_transactions (some ⟨y, m⟩) txs = .error .serverError) ∧
      (∀ s, summary (some ⟨y, m⟩) s = .error .serverError)) := by
  constructor
  · rintro ⟨h1, h2, h3, h4, h5⟩
    exact month_range_some y m h1 h2 h3 h4 h5
  · intro hbad
    have hn := month_range_none_of_bad_month y m hbad
    refine ⟨hn, fun txs => ?_, fun s => ?_⟩
    · simp [list_transactions, hn]
    · simp [summary, hn]

theorem C10_month_range_partial_amended_witness :
    month_range 2024 5 =
      some (⟨2024, 5, 1⟩, if 5 = 12 then (⟨2024 + 1, 1, 1⟩ : Date) else ⟨2024, 5 + 1, 1⟩) ∧
    month_range 2024 13 = none ∧
    list_transactions (some ⟨2024, 13⟩) [txT1] = .error .serverError ∧
    summary (some ⟨2024, 13⟩) storeMain = .error .serverError := by
  have hgood := (C10_month_range_partial_amended 2024 5).1 (by decide)
  have hbad := (C10_month_range_partial_amended 2024 13).2 (by decide)
  exact ⟨hgood, hbad.1, hbad.2.1 [txT1], hbad.2.2 storeMain⟩

/-- C6: with no month parameter the budget-status list is empty regardless
of stored budgets; with a month, it holds one entry per stored budget whose
month equals the requested one, with spent = rounded sum of the expense
amounts in the month-filtered transactions matching the budget's category,
and remaining = rounded (amount - unrounded spent) — no clamping at zero. -/
theorem C6_budget_status (tok : MonthTok) (start next_month : Date) (s : Store)
    (h : month_range tok.year tok.month = some (start, next_month)) :
    summaryBudgetsOf (summary none s) = some [] ∧
    summaryBudgetsOf (summary (some tok) s) =
      some ((s.budgets.filter fun b => b.month == tok).map fun b =>
        let spent := sumAmounts ((s.transactions.filter fun t =>
          in_month_of_summary start next_month t.date).filter fun t =>
            t.category_id == b.category_id && t.type == TxKind.expense)
        { budget_id := b.id, category_id := b.category_id, month := tok,
          amount := b.amount, spent := round2 spent,
          remaining := round2 (b.amount - spent) }) := by
  constructor
  · rfl
  · simp [summary, h, summaryBudgetsOf, Except.toOption]

theorem C6_budget_status_witness :
    summaryBudgetsOf (summary none storeMain) = some [] ∧
    summaryBudgetsOf (summary (some tokMar) storeMain) =
      some [{ budget_id := "b1", category_id := "c1", month := tokMar,
              amount := 10, spent := 30, remaining := -20 }] := by
  have h := C6_budget_status tokMar ⟨2024, 3, 1⟩ ⟨2024, 4, 1⟩ storeMain (by decide)
  refine ⟨h.1, ?_⟩
  rw [h.2]
  simp only [storeMain, budB, txT1, tokMar, List.filter_cons, List.filter_nil,
    in_month_of_summary, Date.leb, Date.ltb]
  norm_num [sumAmounts, List.foldl_cons, List.foldl_nil, round2_eval_30,
    round2_eval_neg20]

/-- C7: a create-transaction request whose account_id does not resolve fails
with the reference-not-found error "Account not found" and leaves the store
untouched; one whose category_id does not resolve fails with "Category not
found", likewise without inserting; when both resolve, exactly one
transaction is appended and only the new identifier is returned. -/
theorem C7_create_transaction_checks (p : TransactionIn) (s : Store) :
    (find_account s p.account_id = none →
      create_transaction p s = (.error (.referenceNotFound "Account not found"), s)) ∧
    (find_account s p.account_id ≠ none → find_category s p.category_id = none →
      create_transaction p s = (.error (.referenceNotFound "Category not found"), s)) ∧
    (find_account s p.account_id ≠ none → find_category s p.category_id ≠ none →
      ∃ tx_id tx,
        (create_transaction p s).1 = .ok tx_id ∧
        (create_transaction p s).2.transactions = s.transactions ++ [tx] ∧
        (create_transaction p s).2.accounts = s.accounts ∧
        (create_transaction p s).2.categories = s.categories ∧
        (create_transaction p s).2.budgets = s.budgets ∧
        tx.id = tx_id ∧ tx.date = p.date ∧ tx.amount = p.amount ∧
        tx.type = p.type ∧ tx.category_id = p.category_id ∧
        tx.account_id = p.account_id) := by
  refine ⟨?_, ?_, ?_⟩
  · intro ha
    simp [create_transaction, ha]
  · intro ha hc
    rcases hsa : find_account s p.account_id with _ | a
    · exact absurd hsa ha
    · simp [create_transaction, hsa, hc]
  · intro ha hc
    rcases hsa : find_account s p.account_id with _ | a
    · exact absurd hsa ha
    rcases hsc : find_category s p.category_id with _ | c
    · exact absurd hsc hc
    refine ⟨"doc" ++ toString s.nextId,
      ⟨"doc" ++ toString s.nextId, p.date, p.amount, p.type, p.category_id,
        p.account_id, p.note, s.nextId⟩, ?_, ?_, ?_, ?_, ?_, rfl, rfl, rfl, rfl, rfl, rfl⟩ <;>
      simp [create_transaction, hsa, hsc]

theorem C7_create_transaction_checks_witness :
    create_transaction txInW storeC3
      = (.error (.referenceNotFound "Account not found"), storeC3) ∧
    (∃ tx_id tx,
      (create_transaction txInW storeMain).1 = .ok tx_id ∧
      (create_transaction txInW storeMain).2.transactions
        = storeMain.transactions ++ [tx] ∧
      (create_transaction txInW storeMain).2.accounts = storeMain.accounts ∧
      (create_transaction txInW storeMain).2.categories = storeMain.categories ∧
      (create_transaction txInW storeMain).2.budgets = storeMain.budgets ∧
      tx.id = tx_id ∧ tx.date = txInW.date ∧ tx.amount = txInW.amount ∧
      tx.type = txInW.type ∧ tx.category_id = txInW.category_id ∧
      tx.account_id = txInW.account_id) :=
  ⟨(C7_create_transaction_checks txInW storeC3).1 rfl,
   (C7_create_transaction_checks txInW storeMain).2.2 (by decide) (by decide)⟩

/-- C8: a create-budget request whose category_id does not resolve fails
with the reference-not-found error; one whose category resolves to a
non-expense category fails with the distinct invalid-category-type error;
in both failure cases no budget is inserted, and on success exactly one
budget is appended and only the new identifier is returned. -/
theorem C8_create_budget_checks (p : BudgetIn) (s : Store) :
    (find_category s p.category_id = none →
      create_budget p s = (.error (.referenceNotFound "Category not found"), s)) ∧
    (∀ cat, find_category s p.category_id = some cat → cat.type ≠ TxKind.expense →
      create_budget p s
        = (.error (.invalidCategoryType "Budget only allowed for expense categories"), s)) ∧
    (∀ cat, find_category s p.category_id = some cat → cat.type = TxKind.expense →
      ∃ b_id b,
        (create_budget p s).1 = .ok b_id ∧
        (create_budget p s).2.budgets = s.budgets ++ [b] ∧
        (create_budget p s).2.accounts = s.accounts ∧
        (create_budget p s).2.categories = s.categories ∧
        (create_budget p s).2.transactions = s.transactions ∧
        b.id = b_id ∧ b.category_id = p.category_id ∧ b.month = p.month ∧
        b.amount = p.amount) := by
  refine ⟨?_, ?_, ?_⟩
  · intro h
    simp [create_budget, h]
  · intro cat hfind htype
    simp [create_budget, hfind, htype]
  · intro cat hfind htype
    refine ⟨"doc" ++ toString s.nextId,
      ⟨"doc" ++ toString s.nextId, p.category_id, p.month, p.amount, s.nextId⟩,
      ?_, ?_, ?_, ?_, ?_, rfl, rfl, rfl, rfl⟩ <;>
      simp [create_budget, hfind, htype]

theorem C8_create_budget_checks_witness :
    create_budget budInMissing storeMain
      = (.error (.referenceNotFound "Category not found"), storeMain) ∧
    create_budget budInIncome storeMain
      = (.error (.invalidCategoryType "Budget only allowed for expense categories"),
         storeMain) ∧
    (∃ b_id b,
      (create_budget budInExpense storeMain).1 = .ok b_id ∧
      (create_budget budInExpense storeMain).2.budgets = storeMain.budgets ++ [b] ∧
      (create_budget budInExpense storeMain).2.accounts = storeMain.accounts ∧
      (create_budget budInExpense storeMain).2.categories = storeMain.categories ∧
      (create_budget budInExpense storeMain).2.transactions = storeMain.transactions ∧
      b.id = b_id ∧ b.category_id = budInExpense.category_id ∧
      b.month = budInExpense.month ∧ b.amount = budInExpense.amount) :=
  ⟨(C8_create_budget_checks budInMissing storeMain).1 rfl,
   (C8_create_budget_checks budInIncome storeMain).2.1 catI rfl (by decide),
   (C8_create_budget_checks budInExpense storeMain).2.2 catC rfl (by decide)⟩

/-- C1: evaluation of the code at a failing input for the claim.  With two
transactions stored in insertion order — txEarly dated 2024-03-01 and
txLate dated 2024-03-02, created later — the summary response lists them in
stored order [txEarly, txLate], although txEarly's date is strictly earlier
(so the claimed descending sort would put txLate first, as the transaction
list endpoint's sort indeed does). -/
theorem C1_summary_transactions_not_sorted :
    summaryTxsOf (summary none storeC1) = some [txEarly, txLate] ∧
    Date.ltb txEarly.date txLate.date = true ∧
    txEarly.date ≠ txLate.date ∧
    sortTxDesc [txEarly, txLate] = [txLate, txEarly] :=
  ⟨rfl, by decide, by decide, rfl⟩
